import Mathlib

/-!
Verification of the computer-use-vm-agent repository: a shallow embedding in
Lean 4 of the session recorder (`session_recorder.py`), the agent control loop
(`main.py`), the replay compiler frame loop (`compile_video.py`) and the VM
click primitive (`vm.py`), together with theorems settling the specification's
claims about them.

Modelling conventions:
- Python floats that are only carried around (timestamps, wait durations) are
  modelled as rationals.
- Raw screenshot bytes are opaque payloads, modelled as `List Nat`.
- File-system side effects (writing screenshot bytes, mkdir) are dropped; the
  path strings the code constructs are kept.
- `json.dumps` followed by `json.loads` on the dictionary shape produced by
  `save_log` (strings, string lists, numbers, null) is faithfully invertible,
  so serialization is modelled at the JSON-value level by the `LogData`
  structure rather than at the character level.
-/

/-- Opaque screenshot byte payload. -/
abbrev Bytes := List Nat

namespace SessionRec

/-- Embeds the `Frame` dataclass of `session_recorder.py` (lines 9-15). -/
structure Frame where
  timestamp : ℚ
  screenshot_path : String
  actions : List String
  reasoning : Option String
deriving DecidableEq, Repr

/-- Decimal digit characters of `n`, most significant first, as rendered by
Python's `str`/format for a nonnegative integer (built on `Nat.digits 10`). -/
def decChars (n : Nat) : List Char :=
  if n = 0 then ['0'] else ((Nat.digits 10 n).map Nat.digitChar).reverse

/-- Zero padding to width `w`, embedding a Python format spec such as
`f"\x7bn:03d\x7d"` (width 3) and `f"\x7bi:05d\x7d"` (width 5). -/
def padZeros (w : Nat) (n : Nat) : String :=
  String.mk (List.replicate (w - (decChars n).length) '0' ++ decChars n)

/-- Screenshot file path built by `add_frame` (line 44):
`self.screenshot_dir / f"\x7btimestamp\x7d_\x7blen(self.frames):03d\x7d.png"`. -/
def screenshotName (dir timeStr : String) (i : Nat) : String :=
  dir ++ "/" ++ timeStr ++ "_" ++ padZeros 3 i ++ ".png"

/-- Embeds the `SessionRecorder` dataclass state (lines 18-25). -/
structure SessionRecorder where
  task : String := ""
  frames : List Frame := []
  screenshot_dir : String := "screenshots"
  _current_reasoning : Option String := none
  _pending_actions : List String := []
deriving DecidableEq, Repr

/-- Embeds `SessionRecorder.set_reasoning` (lines 27-29). -/
def set_reasoning (r : SessionRecorder) (text : String) : SessionRecorder :=
  { r with _current_reasoning := some text }

/-- Embeds `SessionRecorder.add_action` (lines 31-33). -/
def add_action (r : SessionRecorder) (action : String) : SessionRecorder :=
  { r with _pending_actions := r._pending_actions ++ [action] }

/-- Embeds `SessionRecorder.add_frame` (lines 35-59). The wall-clock string
`time.strftime("%H%M%S")` and the float `time.time()` are effectful reads,
passed in as the arguments `timeStr` and `now`; the write of the screenshot
bytes to disk is a side effect outside the state. Returns the updated
recorder and the returned path string. -/
def add_frame (r : SessionRecorder) (timeStr : String) (now : ℚ)
    (_screenshot_bytes : Bytes) : SessionRecorder × String :=
  let screenshot_path := screenshotName r.screenshot_dir timeStr r.frames.length
  ({ r with
      frames := r.frames ++ [{ timestamp := now
                               screenshot_path := screenshot_path
                               actions := r._pending_actions
                               reasoning := r._current_reasoning }]
      _current_reasoning := none
      _pending_actions := [] },
   screenshot_path)

/-- Frame dictionary shape written by `save_log` (lines 65-73). -/
structure LogFrame where
  timestamp : ℚ
  screenshot : String
  actions : List String
  reasoning : Option String
deriving DecidableEq, Repr

/-- Top-level dictionary shape written by `save_log` (lines 63-74). -/
structure LogData where
  task : String
  frames : List LogFrame
deriving DecidableEq, Repr

/-- Embeds `SessionRecorder.save_log` (lines 61-76): the JSON value serialized
to the file, modelled at the value level. -/
def save_log (r : SessionRecorder) : LogData :=
  { task := r.task
    frames := r.frames.map fun f =>
      { timestamp := f.timestamp
        screenshot := f.screenshot_path
        actions := f.actions
        reasoning := f.reasoning } }

/-- Embeds `SessionRecorder.load_log` (lines 78-90): builds a fresh recorder
from the parsed JSON value, appending one frame per entry in order. No
check that the referenced screenshot files exist is performed. -/
def load_log (d : LogData) : SessionRecorder :=
  { task := d.task
    frames := d.frames.map fun f =>
      { timestamp := f.timestamp
        screenshot_path := f.screenshot
        actions := f.actions
        reasoning := f.reasoning } }

end SessionRec

namespace SessionRec

theorem decChars_ne_nil (n : Nat) : decChars n ≠ [] := by
  unfold decChars
  by_cases h : n = 0
  · simp [h]
  · simp only [h, if_false, ne_eq, List.reverse_eq_nil_iff, List.map_eq_nil_iff]
    exact Nat.digits_ne_nil_iff_ne_zero.mpr h

theorem digitChar_fin_inj :
    ∀ a b : Fin 10, Nat.digitChar a.val = Nat.digitChar b.val → a = b := by
  decide

theorem digitChar_lt_inj {a b : Nat} (ha : a < 10) (hb : b < 10)
    (h : Nat.digitChar a = Nat.digitChar b) : a = b := by
  have := digitChar_fin_inj ⟨a, ha⟩ ⟨b, hb⟩ h
  exact congrArg Fin.val this

theorem digitChar_ne_zero_char :
    ∀ d : Fin 10, d.val ≠ 0 → (Nat.digitChar d.val == '0') = false := by
  decide

theorem map_digitChar_inj (l1 : List Nat) :
    ∀ l2 : List Nat, (∀ x ∈ l1, x < 10) → (∀ x ∈ l2, x < 10) →
      l1.map Nat.digitChar = l2.map Nat.digitChar → l1 = l2 := by
  induction l1 with
  | nil => intro l2 _ _ h; cases l2 <;> simp_all
  | cons a t ih =>
    intro l2 h1 h2 h
    cases l2 with
    | nil => simp at h
    | cons b t2 =>
      simp only [List.map_cons, List.cons.injEq] at h
      have hab : a = b :=
        digitChar_lt_inj (h1 a (by simp)) (h2 b (by simp)) h.1
      have ht : t = t2 :=
        ih t2 (fun x hx => h1 x (by simp [hx])) (fun x hx => h2 x (by simp [hx])) h.2
      simp [hab, ht]

theorem decChars_head {n : Nat} (hn : n ≠ 0) :
    ∃ c cs, decChars n = c :: cs ∧ (c == '0') = false := by
  have hd : Nat.digits 10 n ≠ [] := Nat.digits_ne_nil_iff_ne_zero.mpr hn
  rcases List.eq_nil_or_concat (Nat.digits 10 n) with h | ⟨L, d, hLd⟩
  · exact absurd h hd
  have hLd' : Nat.digits 10 n = L ++ [d] := by
    rw [hLd, List.concat_eq_append]
  have hlast : (Nat.digits 10 n).getLast hd = d := by
    have h1 : (Nat.digits 10 n).getLast? = some d := by
      rw [hLd']; exact List.getLast?_concat L
    have h2 := List.getLast?_eq_getLast (Nat.digits 10 n) hd
    rw [h2] at h1
    exact Option.some.injEq .. ▸ h1.symm ▸ rfl
  have hd0 : d ≠ 0 := by
    have := Nat.getLast_digit_ne_zero 10 hn
    rwa [hlast] at this
  have hdlt : d < 10 :=
    Nat.digits_lt_base (m := n) (by norm_num) (by rw [hLd']; simp)
  refine ⟨Nat.digitChar d, (L.map Nat.digitChar).reverse, ?_, ?_⟩
  · unfold decChars
    rw [if_neg hn, hLd']
    simp
  · exact digitChar_ne_zero_char ⟨d, hdlt⟩ hd0

theorem decChars_injective : Function.Injective decChars := by
  intro a b h
  by_cases ha : a = 0 <;> by_cases hb : b = 0
  · rw [ha, hb]
  · obtain ⟨c, cs, hcs, hc0⟩ := decChars_head hb
    rw [ha, hcs] at h
    have : c = '0' := by
      have := congrArg (fun l => l.head?) h
      simpa [decChars] using this.symm
    rw [this] at hc0
    simp at hc0
  · obtain ⟨c, cs, hcs, hc0⟩ := decChars_head ha
    rw [hb, hcs] at h
    have : c = '0' := by
      have := congrArg (fun l => l.head?) h
      simpa [decChars] using this
    rw [this] at hc0
    simp at hc0
  · have h' : ((Nat.digits 10 a).map Nat.digitChar).reverse
        = ((Nat.digits 10 b).map Nat.digitChar).reverse := by
      unfold decChars at h
      rwa [if_neg ha, if_neg hb] at h
    have h'' : (Nat.digits 10 a).map Nat.digitChar
        = (Nat.digits 10 b).map Nat.digitChar :=
      List.reverse_injective h'
    have hdig : Nat.digits 10 a = Nat.digits 10 b :=
      map_digitChar_inj _ _
        (fun x hx => Nat.digits_lt_base (by norm_num) hx)
        (fun x hx => Nat.digits_lt_base (by norm_num) hx) h''
    exact Nat.digits.injective 10 hdig

theorem dropZeros_replicate (z : Nat) (l : List Char) :
    (List.replicate z '0' ++ l).dropWhile (fun c => c == '0')
      = l.dropWhile (fun c => c == '0') := by
  induction z with
  | zero => simp
  | succ z ih => simp [List.replicate_succ, List.dropWhile_cons, ih]

theorem padZeros_injective (w : Nat) : Function.Injective (padZeros w) := by
  intro a b h
  have hdata : List.replicate (w - (decChars a).length) '0' ++ decChars a
      = List.replicate (w - (decChars b).length) '0' ++ decChars b :=
    congrArg String.data h
  have hdz := congrArg (List.dropWhile (fun c => c == '0')) hdata
  rw [dropZeros_replicate, dropZeros_replicate] at hdz
  by_cases ha : a = 0 <;> by_cases hb : b = 0
  · rw [ha, hb]
  · exfalso
    obtain ⟨c, cs, hcs, hc0⟩ := decChars_head hb
    rw [ha, hcs] at hdz
    simp only [decChars, if_pos rfl] at hdz
    rw [List.dropWhile_cons] at hdz
    simp [hc0, List.dropWhile] at hdz
  · exfalso
    obtain ⟨c, cs, hcs, hc0⟩ := decChars_head ha
    rw [hb, hcs] at hdz
    simp only [decChars, if_pos rfl] at hdz
    rw [List.dropWhile_cons] at hdz
    simp [hc0, List.dropWhile] at hdz
  · obtain ⟨ca, csa, hcsa, hca⟩ := decChars_head ha
    obtain ⟨cb, csb, hcsb, hcb⟩ := decChars_head hb
    rw [hcsa, hcsb, List.dropWhile_cons, List.dropWhile_cons] at hdz
    rw [hca, hcb] at hdz
    simp only [if_false, Bool.false_eq_true] at hdz
    exact decChars_injective (by rw [hcsa, hcsb]; exact hdz)

theorem screenshotName_injective (dir timeStr : String) :
    Function.Injective (screenshotName dir timeStr) := by
  intro i j h
  unfold screenshotName at h
  have hdata := congrArg String.data h
  simp only [String.data_append, List.append_assoc] at hdata
  have h1 := List.append_cancel_left hdata
  have h2 := List.append_cancel_left h1
  have h3 := List.append_cancel_left h2
  have h4 := List.append_cancel_left h3
  have h5 : (padZeros 3 i).data = (padZeros 3 j).data :=
    List.append_cancel_right h4
  exact padZeros_injective 3 (String.ext h5)

/-- Committing a sequence of screenshots one after another, all with the same
wall-clock time string (the same second), via repeated `add_frame` calls. -/
def commitFrames (r : SessionRecorder) (timeStr : String) (now : ℚ)
    (shots : List Bytes) : SessionRecorder :=
  shots.foldl (fun s b => (add_frame s timeStr now b).1) r

theorem commitFrames_paths (r : SessionRecorder) (ts : String) (now : ℚ)
    (shots : List Bytes) :
    (commitFrames r ts now shots).frames.map Frame.screenshot_path
      = r.frames.map Frame.screenshot_path
        ++ (List.range' r.frames.length shots.length).map
            (screenshotName r.screenshot_dir ts) := by
  induction shots generalizing r with
  | nil => simp [commitFrames]
  | cons b bs ih =>
    have step : commitFrames r ts now (b :: bs)
        = commitFrames (add_frame r ts now b).1 ts now bs := rfl
    rw [step, ih]
    simp [add_frame, List.range'_succ, List.append_assoc]

/-- C7. Unique screenshot naming: however many frames are committed within
the same wall-clock second (the same `timeStr`), the screenshot paths of the
newly committed frames are pairwise distinct, because each name embeds the
frame's index in the sequence next to the capture time. -/
theorem screenshot_names_distinct (r : SessionRecorder) (timeStr : String)
    (now : ℚ) (shots : List Bytes) :
    (((commitFrames r timeStr now shots).frames.map Frame.screenshot_path).drop
        r.frames.length).Nodup := by
  rw [commitFrames_paths, List.drop_left' (by simp)]
  exact List.Nodup.map (screenshotName_injective _ _) (List.nodup_range' _ _)

/-- C1. Round-trip law: saving a session with `save_log` and reloading with
`load_log` yields a recorder with an identical task string and an identical
ordered frame list (hence the same frame count, and identical actions and
reasoning per frame). Screenshots stay referenced by path strings inside the
frames and no existence check happens at load time (`load_log` is a pure
function of the parsed log data). -/
theorem save_load_roundtrip (r : SessionRecorder) :
    (load_log (save_log r)).task = r.task ∧
    (load_log (save_log r)).frames = r.frames := by
  refine ⟨rfl, ?_⟩
  simp only [load_log, save_log, List.map_map]
  exact List.map_id'' (fun f => rfl) r.frames

/-- C5. Frame immutability and append-only log: `set_reasoning` and
`add_action` leave the committed frame list untouched; `add_frame` appends
exactly one new frame at the end of the sequence (so every previously
committed frame is unchanged in content and order), and in the same step the
pending actions and pending reasoning buffers are cleared, so later buffer
mutations cannot reach a committed frame. -/
theorem recorder_append_only (r : SessionRecorder) (t a timeStr : String)
    (now : ℚ) (b : Bytes) :
    (set_reasoning r t).frames = r.frames ∧
    (add_action r a).frames = r.frames ∧
    (∃ f : Frame, (add_frame r timeStr now b).1.frames = r.frames ++ [f]) ∧
    (add_frame r timeStr now b).1._pending_actions = [] ∧
    (add_frame r timeStr now b).1._current_reasoning = none :=
  ⟨rfl, rfl, ⟨_, rfl⟩, rfl, rfl⟩

/-- C6. Semantics of committing a frame: starting from a recorder with an
empty pending buffer, recording action `a` then action `b` and committing
yields a frame whose actions are exactly `[a, b]` in that order; two
`set_reasoning` calls before a commit yield a frame carrying only the second
text (last-write-wins); and a commit immediately following another commit
with no intervening record calls yields a frame with empty actions and null
reasoning, because the commit cleared the pending state. -/
theorem commit_frame_semantics (r : SessionRecorder)
    (a b t1 t2 ts ts2 : String) (now now2 : ℚ) (sb sb2 : Bytes)
    (hp : r._pending_actions = []) :
    ((add_frame (add_action (add_action r a) b) ts now sb).1.frames.getLast?).map
        Frame.actions = some [a, b] ∧
    ((add_frame (set_reasoning (set_reasoning r t1) t2) ts now sb).1.frames.getLast?).map
        Frame.reasoning = some (some t2) ∧
    ((add_frame (add_frame r ts now sb).1 ts2 now2 sb2).1.frames.getLast?).map
        Frame.actions = some [] ∧
    ((add_frame (add_frame r ts now sb).1 ts2 now2 sb2).1.frames.getLast?).map
        Frame.reasoning = some none := by
  refine ⟨?_, ?_, ?_, ?_⟩ <;>
    simp [add_frame, add_action, set_reasoning, List.getLast?_concat, hp]

/-- Closed witness for C6 at a concrete recorder and inputs. -/
theorem commit_frame_semantics_witness :
    ({} : SessionRecorder)._pending_actions = [] ∧
    (((add_frame (add_action (add_action ({} : SessionRecorder) "A") "B") "120000" 0 []).1.frames.getLast?).map
        Frame.actions = some ["A", "B"] ∧
    ((add_frame (set_reasoning (set_reasoning ({} : SessionRecorder) "first") "second") "120000" 0 []).1.frames.getLast?).map
        Frame.reasoning = some (some "second") ∧
    ((add_frame (add_frame ({} : SessionRecorder) "120000" 0 []).1 "120001" 1 []).1.frames.getLast?).map
        Frame.actions = some [] ∧
    ((add_frame (add_frame ({} : SessionRecorder) "120000" 0 []).1 "120001" 1 []).1.frames.getLast?).map
        Frame.reasoning = some none) :=
  ⟨rfl, commit_frame_semantics {} "A" "B" "first" "second" "120000" "120001" 0 1 [] [] rfl⟩

end SessionRec

namespace Agent

open SessionRec

/-- Tool-call arguments dictionary (`tool.input` in `main.py`), with one
optional slot per key the code reads. A missing slot models a missing key. -/
structure Args where
  x : Option Int := none
  y : Option Int := none
  button : Option String := none
  clicks : Option Int := none
  text : Option String := none
  key : Option String := none
  question : Option String := none
  seconds : Option ℚ := none
deriving DecidableEq, Repr

/-- Content block of an oracle response: a text block (`block.text`) or a
tool-use block (`block.type == "tool_use"`, carrying id, name and input). -/
inductive Block where
  | text (s : String)
  | tool_use (id : String) (name : String) (args : Args)
deriving DecidableEq, Repr

/-- Oracle response: content blocks plus the stop reason string. -/
structure Response where
  content : List Block
  stop_reason : String
deriving DecidableEq, Repr

/-- Extracts a nonempty text payload, modelling
`hasattr(block, "text") and block.text`. -/
def blockText? : Block → Option String
  | .text s => if s = "" then none else some s
  | .tool_use .. => none

/-- Matches `[b for b in response.content if b.type == "tool_use"]`. -/
def toolUse? : Block → Option (String × String × Args)
  | .tool_use id name args => some (id, name, args)
  | .text _ => none

/-- Outcome of the remote control surface for one primitive call: success, or
a `VMError` carrying a message. Embeds the `VM` methods of `vm.py` at the
interface `execute_tool` consumes; each primitive is a pure call outcome. -/
structure VMModel where
  screenshot : Except String Bytes
  move_mouse : Int → Int → Except String Unit
  click : String → Int → Except String Unit
  type_text : String → Except String Unit
  press_key : String → Except String Unit

/-- Result dictionary built by `execute_tool` (lines 105-140 of `main.py`):
`success` plus the possible payload keys. -/
structure ToolResult where
  success : Bool
  error : Option String := none
  image : Option Bytes := none
  moved_to : Option (Int × Int) := none
  chars : Option Nat := none
  key : Option String := none
  user_said : Option String := none
  waited : Option ℚ := none
deriving DecidableEq, Repr

/-- Embeds `execute_tool` (lines 105-140 of `main.py`), in the
`recorder=None` configuration used by the loop model below. A raised
`VMError` is caught and turned into a failure dictionary; a missing required
argument key raises `KeyError`, caught by the generic handler; an unknown
tool name yields the typed failure dictionary of line 136. The `ask_user`
branch reads the operator's reply (`input()`), passed in as `userInput`;
the `wait` branch sleeps `max(0, min(args.get("seconds", 1), 30))` seconds
and reports that duration. -/
def executeTool (vm : VMModel) (userInput : String) (name : String)
    (args : Args) : ToolResult :=
  if name = "screenshot" then
    match vm.screenshot with
    | .ok png => { success := true, image := some png }
    | .error e => { success := false, error := some e }
  else if name = "move_mouse" then
    match args.x, args.y with
    | some x, some y =>
      match vm.move_mouse x y with
      | .ok _ => { success := true, moved_to := some (x, y) }
      | .error e => { success := false, error := some e }
    | _, _ => { success := false, error := some "Unexpected error: KeyError" }
  else if name = "click" then
    match vm.click (args.button.getD "left") (args.clicks.getD 1) with
    | .ok _ => { success := true }
    | .error e => { success := false, error := some e }
  else if name = "type_text" then
    match args.text with
    | some t =>
      match vm.type_text t with
      | .ok _ => { success := true, chars := some t.length }
      | .error e => { success := false, error := some e }
    | none => { success := false, error := some "Unexpected error: KeyError" }
  else if name = "press_key" then
    match args.key with
    | some k =>
      match vm.press_key k with
      | .ok _ => { success := true, key := some k }
      | .error e => { success := false, error := some e }
    | none => { success := false, error := some "Unexpected error: KeyError" }
  else if name = "ask_user" then
    match args.question with
    | some _ => { success := true, user_said := some userInput }
    | none => { success := false, error := some "Unexpected error: KeyError" }
  else if name = "wait" then
    { success := true, waited := some (max 0 (min ((args.seconds).getD 1) 30)) }
  else
    { success := false, error := some ("Unknown tool: " ++ name) }

/-- Embeds `generate_handoff` (lines 143-172 of `main.py`): given the
oracle's reply to the summary query, return the first nonempty text block,
or the fixed fallback sentence. -/
def generateHandoff (summaryResp : Response) : String :=
  match summaryResp.content.findSome? blockText? with
  | some t => t
  | none => "No handoff summary generated."

/-- Default decision-round budget, `MAX_ITERATIONS = 100` (line 91). -/
def MAX_ITERATIONS : Nat := 100

/-- Observable outcome of one `run_agent` call: the returned handoff text
(`none` models Python's `None` return, i.e. completion), the number of
decision queries issued to the oracle, the number of summary queries, and
the per-round tool results appended back into conversation history. -/
structure RunResult where
  handoff : Option String
  decisionQueries : Nat
  summaryQueries : Nat
  resultsHistory : List (List (String × ToolResult))
deriving DecidableEq, Repr

/-- Tool-use triples requested by the oracle in decision round `i`. -/
def roundTools (oracle : Nat → Response) (i : Nat) :
    List (String × String × Args) :=
  (oracle i).content.filterMap toolUse?

/-- Tool results fed back into history for decision round `i`. -/
def roundResults (vm : VMModel) (userInput : String)
    (oracle : Nat → Response) (i : Nat) : List (String × ToolResult) :=
  (roundTools oracle i).map fun t => (t.1, executeTool vm userInput t.2.1 t.2.2)

/-- Embeds the `for iteration in range(MAX_ITERATIONS)` loop of `run_agent`
(lines 236-313 of `main.py`). The oracle is abstracted as a function from
the decision-round index to its response (the code passes the accumulated
message history; along any single execution the responses form such a
sequence). `fuel` counts the remaining allowed rounds, `i` the rounds done,
`hist` the tool-result batches appended to the conversation so far. When
fuel runs out, one summary query is issued via `generate_handoff` and its
text is returned. -/
def runLoop (vm : VMModel) (userInput : String) (oracle : Nat → Response)
    (summaryResp : Response) :
    Nat → Nat → List (List (String × ToolResult)) → RunResult
  | 0, i, hist =>
    { handoff := some (generateHandoff summaryResp)
      decisionQueries := i
      summaryQueries := 1
      resultsHistory := hist }
  | fuel + 1, i, hist =>
    let resp := oracle i
    if resp.stop_reason = "end_turn" then
      { handoff := none, decisionQueries := i + 1, summaryQueries := 0
        resultsHistory := hist }
    else
      let tools := resp.content.filterMap toolUse?
      if tools.isEmpty then
        { handoff := none, decisionQueries := i + 1, summaryQueries := 0
          resultsHistory := hist }
      else
        runLoop vm userInput oracle summaryResp fuel (i + 1)
          (hist ++ [tools.map fun t => (t.1, executeTool vm userInput t.2.1 t.2.2)])

/-- Embeds `run_agent` (lines 175-313 of `main.py`) without an attached
recorder: take the initial screenshot (returning `None` with no oracle
queries if it raises `VMError`), then run the decision loop with the given
iteration budget. -/
def runAgent (vm : VMModel) (userInput : String) (oracle : Nat → Response)
    (summaryResp : Response) (maxIterations : Nat) : RunResult :=
  match vm.screenshot with
  | .error _ =>
    { handoff := none, decisionQueries := 0, summaryQueries := 0
      resultsHistory := [] }
  | .ok _ => runLoop vm userInput oracle summaryResp maxIterations 0 []

theorem findSome_blockText_ne_empty :
    ∀ (l : List Block) (s : String), l.findSome? blockText? = some s → s ≠ "" := by
  intro l
  induction l with
  | nil => intro s h; simp [List.findSome?] at h
  | cons b t ih =>
    intro s h
    rw [List.findSome?_cons] at h
    cases b with
    | text s0 =>
      by_cases h0 : s0 = ""
      · have hb : blockText? (Block.text s0) = none := by simp [blockText?, h0]
        rw [hb] at h; exact ih s h
      · have hb : blockText? (Block.text s0) = some s0 := by simp [blockText?, h0]
        rw [hb] at h
        simp only [] at h
        have : s0 = s := by
          cases h; rfl
        rw [← this]; exact h0
    | tool_use id name args =>
      have hb : blockText? (Block.tool_use id name args) = none := rfl
      rw [hb] at h; exact ih s h

theorem generateHandoff_ne_empty (summaryResp : Response) :
    generateHandoff summaryResp ≠ "" := by
  unfold generateHandoff
  cases h : summaryResp.content.findSome? blockText? with
  | none => simp
  | some t => exact findSome_blockText_ne_empty _ t h

theorem runLoop_exhaust (vm : VMModel) (u : String) (oracle : Nat → Response)
    (summaryResp : Response)
    (h : ∀ i, (oracle i).stop_reason ≠ "end_turn" ∧ roundTools oracle i ≠ []) :
    ∀ (fuel i : Nat) (hist : List (List (String × ToolResult))),
      runLoop vm u oracle summaryResp fuel i hist =
        { handoff := some (generateHandoff summaryResp)
          decisionQueries := i + fuel
          summaryQueries := 1
          resultsHistory := hist ++ (List.range' i fuel).map (roundResults vm u oracle) } := by
  intro fuel
  induction fuel with
  | zero => intro i hist; simp [runLoop]
  | succ fuel ih =>
    intro i hist
    have hstop := (h i).1
    have htools : ((oracle i).content.filterMap toolUse?).isEmpty = false := by
      have := (h i).2
      unfold roundTools at this
      simpa [List.isEmpty_iff] using this
    rw [runLoop, if_neg hstop]
    simp only [htools, Bool.false_eq_true, if_false]
    rw [ih (i + 1)]
    have hq : i + 1 + fuel = i + (fuel + 1) := by omega
    have hr : List.range' i (fuel + 1) = i :: List.range' (i + 1) fuel :=
      List.range'_succ i fuel 1
    rw [hq, hr]
    simp [roundResults, roundTools, List.append_assoc]

/-- Remote control surface stub whose primitives all succeed. -/
def vmAllOk : VMModel where
  screenshot := Except.ok []
  move_mouse := fun _ _ => Except.ok ()
  click := fun _ _ => Except.ok ()
  type_text := fun _ => Except.ok ()
  press_key := fun _ => Except.ok ()

/-- Remote control surface stub whose `click` call raises a `VMError`. -/
def vmClickBoom : VMModel :=
  { vmAllOk with click := fun _ _ => Except.error "boom" }

/-- Oracle stub that requests one benign click action every round and never
signals completion. -/
def oracleClickOnly : Nat → Response := fun _ =>
  { content := [Block.tool_use "t1" "click" {}], stop_reason := "tool_use" }

/-- Oracle stub that signals completion on its first response. -/
def oracleDone : Nat → Response := fun _ =>
  { content := [Block.text "done"], stop_reason := "end_turn" }

/-- Summary-query response stub carrying a text block. -/
def summaryOk : Response :=
  { content := [Block.text "progress so far"], stop_reason := "end_turn" }

/-- C2. Budget exhaustion: for every oracle that always returns at least one
requested action and never signals completion (and a working screenshot), the
loop performs exactly the budgeted number of decision rounds, then issues
exactly one additional summary query and returns non-empty handoff text; the
budget is a parameter of the loop here, and the code's default
`MAX_ITERATIONS` is 100. -/
theorem budget_exhaustion (vm : VMModel) (u : String) (oracle : Nat → Response)
    (summaryResp : Response) (n : Nat) (png : Bytes)
    (hshot : vm.screenshot = Except.ok png)
    (h : ∀ i, (oracle i).stop_reason ≠ "end_turn" ∧ roundTools oracle i ≠ []) :
    (runAgent vm u oracle summaryResp n).decisionQueries = n ∧
    (runAgent vm u oracle summaryResp n).summaryQueries = 1 ∧
    (runAgent vm u oracle summaryResp n).handoff
      = some (generateHandoff summaryResp) ∧
    generateHandoff summaryResp ≠ "" ∧
    MAX_ITERATIONS = 100 := by
  have h1 : runAgent vm u oracle summaryResp n
      = runLoop vm u oracle summaryResp n 0 [] := by
    unfold runAgent; rw [hshot]
  rw [h1, runLoop_exhaust vm u oracle summaryResp h n 0 []]
  exact ⟨by simp, rfl, rfl, generateHandoff_ne_empty _, rfl⟩

/-- Closed witness for C2: with budget 3 and a stub oracle that always asks
for one click, the loop does 3 decision rounds, 1 summary query, and returns
the nonempty summary text. -/
theorem budget_exhaustion_witness :
    vmAllOk.screenshot = Except.ok ([] : Bytes) ∧
    (∀ i, (oracleClickOnly i).stop_reason ≠ "end_turn" ∧
      roundTools oracleClickOnly i ≠ []) ∧
    ((runAgent vmAllOk "" oracleClickOnly summaryOk 3).decisionQueries = 3 ∧
     (runAgent vmAllOk "" oracleClickOnly summaryOk 3).summaryQueries = 1 ∧
     (runAgent vmAllOk "" oracleClickOnly summaryOk 3).handoff
       = some (generateHandoff summaryOk) ∧
     generateHandoff summaryOk ≠ "" ∧
     MAX_ITERATIONS = 100) :=
  ⟨rfl, fun i => ⟨by simp [oracleClickOnly],
      by unfold roundTools oracleClickOnly; simp [toolUse?]⟩,
    budget_exhaustion vmAllOk "" oracleClickOnly summaryOk 3 [] rfl
      (fun i => ⟨by simp [oracleClickOnly],
        by unfold roundTools oracleClickOnly; simp [toolUse?]⟩)⟩

/-- C3. Completion termination: if the initial screenshot succeeds and the
oracle's first response signals completion (`end_turn`) or contains no
tool-use blocks at all, the loop returns after exactly one decision query,
with no actions executed, no summary query and no handoff text. -/
theorem completion_terminates (vm : VMModel) (u : String)
    (oracle : Nat → Response) (summaryResp : Response) (n : Nat) (png : Bytes)
    (hshot : vm.screenshot = Except.ok png) (hn : 1 ≤ n)
    (h : (oracle 0).stop_reason = "end_turn" ∨ roundTools oracle 0 = []) :
    runAgent vm u oracle summaryResp n =
      { handoff := none, decisionQueries := 1, summaryQueries := 0
        resultsHistory := [] } := by
  obtain ⟨m, rfl⟩ : ∃ m, n = m + 1 := ⟨n - 1, by omega⟩
  have h1 : runAgent vm u oracle summaryResp (m + 1)
      = runLoop vm u oracle summaryResp (m + 1) 0 [] := by
    unfold runAgent; rw [hshot]
  rw [h1]
  simp only [runLoop]
  rcases h with h | h
  · rw [if_pos h]
  · by_cases hs : (oracle 0).stop_reason = "end_turn"
    · rw [if_pos hs]
    · rw [if_neg hs]
      have he : ((oracle 0).content.filterMap toolUse?).isEmpty = true := by
        unfold roundTools at h
        simp [List.isEmpty_iff, h]
      simp [he]

/-- Closed witness for C3: an oracle whose first response is an `end_turn`
completion signal stops the loop after one query with nothing executed. -/
theorem completion_terminates_witness :
    vmAllOk.screenshot = Except.ok ([] : Bytes) ∧ 1 ≤ 3 ∧
    ((oracleDone 0).stop_reason = "end_turn" ∨ roundTools oracleDone 0 = []) ∧
    runAgent vmAllOk "" oracleDone summaryOk 3 =
      { handoff := none, decisionQueries := 1, summaryQueries := 0
        resultsHistory := [] } :=
  ⟨rfl, by norm_num, Or.inl rfl,
    completion_terminates vmAllOk "" oracleDone summaryOk 3 [] rfl
      (by norm_num) (Or.inl rfl)⟩

/-- C4. Action-failure containment: a `VMError` raised by the remote control
surface during a click, and an unrecognized action name, each produce a
structured failure dictionary (`success = false` with an error message) from
`execute_tool` — which is a total function here, so nothing unwinds past the
loop — and with an oracle that keeps requesting the failing click, the loop
still performs all of its budgeted rounds, feeding each failure result back
into the conversation history, instead of terminating early. -/
theorem action_failure_containment (vm : VMModel) (u : String) (args : Args)
    (e : String) (name : String) (png : Bytes) (oracle : Nat → Response)
    (summaryResp : Response) (n : Nat)
    (hclick : vm.click (args.button.getD "left") (args.clicks.getD 1)
      = Except.error e)
    (hname : name ≠ "screenshot" ∧ name ≠ "move_mouse" ∧ name ≠ "click" ∧
      name ≠ "type_text" ∧ name ≠ "press_key" ∧ name ≠ "ask_user" ∧
      name ≠ "wait")
    (hshot : vm.screenshot = Except.ok png)
    (horacle : ∀ i, oracle i =
      { content := [Block.tool_use "t1" "click" args]
        stop_reason := "tool_use" }) :
    (executeTool vm u "click" args).success = false ∧
    (executeTool vm u "click" args).error = some e ∧
    (∀ e2 (x y : Int), vm.move_mouse x y = Except.error e2 →
      (executeTool vm u "move_mouse" { args with x := some x, y := some y }).success = false ∧
      (executeTool vm u "move_mouse" { args with x := some x, y := some y }).error = some e2) ∧
    (∀ e3 t, vm.type_text t = Except.error e3 →
      (executeTool vm u "type_text" { args with text := some t }).success = false ∧
      (executeTool vm u "type_text" { args with text := some t }).error = some e3) ∧
    (∀ e4 k, vm.press_key k = Except.error e4 →
      (executeTool vm u "press_key" { args with key := some k }).success = false ∧
      (executeTool vm u "press_key" { args with key := some k }).error = some e4) ∧
    (∀ e5 (vm2 : VMModel), vm2.screenshot = Except.error e5 →
      (executeTool vm2 u "screenshot" args).success = false ∧
      (executeTool vm2 u "screenshot" args).error = some e5) ∧
    (executeTool vm u name args).success = false ∧
    (executeTool vm u name args).error = some ("Unknown tool: " ++ name) ∧
    (runAgent vm u oracle summaryResp n).decisionQueries = n ∧
    (runAgent vm u oracle summaryResp n).summaryQueries = 1 ∧
    (runAgent vm u oracle summaryResp n).resultsHistory =
      (List.range' 0 n).map (fun _ => [("t1", executeTool vm u "click" args)]) := by
  obtain ⟨hn1, hn2, hn3, hn4, hn5, hn6, hn7⟩ := hname
  have hexec : executeTool vm u "click" args
      = { success := false, error := some e } := by
    simp [executeTool, hclick]
  have hunknown : executeTool vm u name args
      = { success := false, error := some ("Unknown tool: " ++ name) } := by
    simp [executeTool, hn1, hn2, hn3, hn4, hn5, hn6, hn7]
  have hround : ∀ i, (oracle i).stop_reason ≠ "end_turn" ∧
      roundTools oracle i ≠ [] := by
    intro i
    constructor
    · rw [horacle i]
      simp
    · unfold roundTools
      rw [horacle i]
      simp [toolUse?]
  have h1 : runAgent vm u oracle summaryResp n
      = runLoop vm u oracle summaryResp n 0 [] := by
    unfold runAgent; rw [hshot]
  refine ⟨by rw [hexec], by rw [hexec],
    fun e2 x y hmm => by constructor <;> simp [executeTool, hmm],
    fun e3 t htt => by constructor <;> simp [executeTool, htt],
    fun e4 k hpk => by constructor <;> simp [executeTool, hpk],
    fun e5 vm2 hss => by constructor <;> simp [executeTool, hss],
    by rw [hunknown], by rw [hunknown], ?_, ?_, ?_⟩
  · rw [h1, runLoop_exhaust vm u oracle summaryResp hround n 0 []]
    simp
  · rw [h1, runLoop_exhaust vm u oracle summaryResp hround n 0 []]
  · rw [h1, runLoop_exhaust vm u oracle summaryResp hround n 0 []]
    simp only [List.nil_append]
    refine List.map_congr_left ?_
    intro i _
    simp [roundResults, roundTools, toolUse?, horacle i]

/-- Closed witness for C4: a stub whose click fails with message "boom" and
an unrecognized action name "frobnicate", with budget 2: both yield
structured failures and the loop still runs both rounds, recording the
failure in history each round. -/
theorem action_failure_containment_witness :
    vmClickBoom.click (({} : Args).button.getD "left")
        (({} : Args).clicks.getD 1) = Except.error "boom" ∧
    ("frobnicate" ≠ "screenshot" ∧ "frobnicate" ≠ "move_mouse" ∧
     "frobnicate" ≠ "click" ∧ "frobnicate" ≠ "type_text" ∧
     "frobnicate" ≠ "press_key" ∧ "frobnicate" ≠ "ask_user" ∧
     "frobnicate" ≠ "wait") ∧
    vmClickBoom.screenshot = Except.ok ([] : Bytes) ∧
    (∀ i, oracleClickOnly i =
      { content := [Block.tool_use "t1" "click" {}]
        stop_reason := "tool_use" }) ∧
    ((executeTool vmClickBoom "" "click" {}).success = false ∧
     (executeTool vmClickBoom "" "click" {}).error = some "boom" ∧
     (∀ e2 (x y : Int), vmClickBoom.move_mouse x y = Except.error e2 →
       (executeTool vmClickBoom "" "move_mouse"
         { x := some x, y := some y }).success = false ∧
       (executeTool vmClickBoom "" "move_mouse"
         { x := some x, y := some y }).error = some e2) ∧
     (∀ e3 t, vmClickBoom.type_text t = Except.error e3 →
       (executeTool vmClickBoom "" "type_text" { text := some t }).success = false ∧
       (executeTool vmClickBoom "" "type_text" { text := some t }).error = some e3) ∧
     (∀ e4 k, vmClickBoom.press_key k = Except.error e4 →
       (executeTool vmClickBoom "" "press_key" { key := some k }).success = false ∧
       (executeTool vmClickBoom "" "press_key" { key := some k }).error = some e4) ∧
     (∀ e5 (vm2 : VMModel), vm2.screenshot = Except.error e5 →
       (executeTool vm2 "" "screenshot" {}).success = false ∧
       (executeTool vm2 "" "screenshot" {}).error = some e5) ∧
     (executeTool vmClickBoom "" "frobnicate" {}).success = false ∧
     (executeTool vmClickBoom "" "frobnicate" {}).error
       = some ("Unknown tool: " ++ "frobnicate") ∧
     (runAgent vmClickBoom "" oracleClickOnly summaryOk 2).decisionQueries = 2 ∧
     (runAgent vmClickBoom "" oracleClickOnly summaryOk 2).summaryQueries = 1 ∧
     (runAgent vmClickBoom "" oracleClickOnly summaryOk 2).resultsHistory =
       (List.range' 0 2).map
         (fun _ => [("t1", executeTool vmClickBoom "" "click" {})])) :=
  ⟨rfl, ⟨by decide, by decide, by decide, by decide, by decide, by decide,
      by decide⟩, rfl, fun _ => rfl,
    action_failure_containment vmClickBoom "" {} "boom" "frobnicate" []
      oracleClickOnly summaryOk 2 rfl
      ⟨by decide, by decide, by decide, by decide, by decide, by decide,
        by decide⟩ rfl (fun _ => rfl)⟩

/-- C9. Wait action bound: whatever numeric duration a wait action requests
(including none at all, where the code defaults to 1), the duration actually
slept and reported by `execute_tool` never exceeds 30 seconds. -/
theorem wait_bounded (vm : VMModel) (u : String) (args : Args) (w : ℚ)
    (h : (executeTool vm u "wait" args).waited = some w) : w ≤ 30 := by
  have hw : executeTool vm u "wait" args
      = { success := true
          waited := some (max 0 (min ((args.seconds).getD 1) 30)) } := by
    simp [executeTool]
  rw [hw] at h
  simp only [Option.some.injEq] at h
  rw [← h]
  exact max_le (by norm_num) (min_le_right _ _)

/-- Closed witness for C9: a requested wait of 1000 seconds sleeps only 30. -/
theorem wait_bounded_witness :
    (executeTool vmAllOk "" "wait" { seconds := some 1000 }).waited
      = some (30 : ℚ) ∧ (30 : ℚ) ≤ 30 := by
  have h : (executeTool vmAllOk "" "wait" { seconds := some 1000 }).waited
      = some (30 : ℚ) := by
    simp [executeTool, vmAllOk]
    norm_num [max_eq_right, min_eq_right]
  exact ⟨h, wait_bounded vmAllOk "" { seconds := some 1000 } 30 h⟩

end Agent

namespace Replay

open SessionRec

/-- Per-frame output name built at line 142 of `compile_video.py`:
`tmpdir / f"frame_\x7bi:05d\x7d.png"` (the temporary directory prefix is the
same for every frame, so it is dropped). -/
def frameFileName (i : Nat) : String :=
  "frame_" ++ padZeros 5 i ++ ".png"

/-- Warning printed at line 138 for a frame whose image file is absent. -/
def missingWarning (path : String) : String :=
  "Warning: Screenshot not found: " ++ path

/-- Embeds the frame-processing loop of `compile_video` (lines 136-143 of
`compile_video.py`) over the enumerated frames: a frame whose screenshot
path does not resolve to an existing file produces a warning and is skipped
with `continue`; an existing one produces an annotated output image named by
its index. Returns the produced output names and the warnings, in order. -/
def processFrames (fileExists : String → Bool) :
    List (Nat × Frame) → List String × List String
  | [] => ([], [])
  | (i, f) :: rest =>
    let done := processFrames fileExists rest
    if fileExists f.screenshot_path then
      (frameFileName i :: done.1, done.2)
    else
      (done.1, missingWarning f.screenshot_path :: done.2)

/-- The frame loop applied to a loaded session, `enumerate(recorder.frames)`. -/
def compileVideoFrames (fileExists : String → Bool) (r : SessionRecorder) :
    List String × List String :=
  processFrames fileExists r.frames.enum

/-- Embeds the success/failure skeleton of `compile_video` (lines 100-162):
`False` when Pillow is absent, when ffmpeg is absent, or when the log has no
frames; otherwise the outcome of the final ffmpeg encode. Missing screenshot
files never make it `False`. -/
def compile_video (hasPIL ffmpegOk : Bool) (_fileExists : String → Bool)
    (r : SessionRecorder) (encodeOk : Bool) : Bool :=
  if hasPIL = false then false
  else if ffmpegOk = false then false
  else if r.frames.isEmpty then false
  else encodeOk

theorem frameFileName_injective : Function.Injective frameFileName := by
  intro i j h
  have hdata := congrArg String.data h
  simp only [frameFileName, String.data_append, List.append_assoc] at hdata
  have h1 := List.append_cancel_left hdata
  have h2 : (padZeros 5 i).data = (padZeros 5 j).data :=
    List.append_cancel_right h1
  exact padZeros_injective 5 (String.ext h2)

theorem processFrames_eq (fileExists : String → Bool) :
    ∀ l : List (Nat × Frame),
      processFrames fileExists l =
        ((l.filter fun p => fileExists p.2.screenshot_path).map
            (fun p => frameFileName p.1),
         (l.filter fun p => !fileExists p.2.screenshot_path).map
            (fun p => missingWarning p.2.screenshot_path)) := by
  intro l
  induction l with
  | nil => simp [processFrames]
  | cons p rest ih =>
    obtain ⟨i, f⟩ := p
    by_cases hf : fileExists f.screenshot_path
    · simp [processFrames, hf, ih, List.filter_cons]
    · simp only [Bool.not_eq_true] at hf
      simp [processFrames, hf, ih, List.filter_cons]

/-- C8. Replay compiler missing-image tolerance: a frame whose screenshot
path does not resolve to an existing file is skipped (its output frame is
never produced) and yields a warning, while every frame whose file does
exist is still processed; and the overall result of `compile_video` is
unaffected by the missing file, so a missing image is never fatal. -/
theorem missing_image_skipped (fileExists : String → Bool)
    (r : SessionRecorder) (i : Nat) (encodeOk : Bool)
    (hi : i < r.frames.length)
    (hmiss : fileExists (r.frames.get ⟨i, hi⟩).screenshot_path = false)
    (hne : r.frames ≠ []) :
    frameFileName i ∉ (compileVideoFrames fileExists r).1 ∧
    missingWarning (r.frames.get ⟨i, hi⟩).screenshot_path
      ∈ (compileVideoFrames fileExists r).2 ∧
    (∀ j, (hj : j < r.frames.length) →
      fileExists (r.frames.get ⟨j, hj⟩).screenshot_path = true →
      frameFileName j ∈ (compileVideoFrames fileExists r).1) ∧
    compile_video true true fileExists r encodeOk = encodeOk := by
  refine ⟨?_, ?_, ?_, ?_⟩
  · intro hmem
    rw [compileVideoFrames, processFrames_eq] at hmem
    simp only [List.mem_map] at hmem
    obtain ⟨p, hp, hpe⟩ := hmem
    rw [List.mem_filter] at hp
    have hpi : p.1 = i := frameFileName_injective hpe
    have hpmem := hp.1
    rw [List.mem_enum_iff_getElem?] at hpmem
    rw [hpi] at hpmem
    have : r.frames[i]? = some (r.frames.get ⟨i, hi⟩) := by
      simp [List.getElem?_eq_getElem hi]
    rw [this] at hpmem
    have hp2 : p.2 = r.frames.get ⟨i, hi⟩ := by
      exact (Option.some.injEq ..).mp hpmem.symm ▸ rfl
    rw [hp2] at hp
    rw [hp.2] at hmiss
    cases hmiss
  · rw [compileVideoFrames, processFrames_eq]
    simp only [List.mem_map]
    refine ⟨(i, r.frames.get ⟨i, hi⟩), ?_, rfl⟩
    rw [List.mem_filter]
    constructor
    · rw [List.mem_enum_iff_getElem?]
      simp [List.getElem?_eq_getElem hi]
    · simp only [Bool.not_eq_true]
      simpa using hmiss
  · intro j hj hex
    rw [compileVideoFrames, processFrames_eq]
    simp only [List.mem_map]
    refine ⟨(j, r.frames.get ⟨j, hj⟩), ?_, rfl⟩
    rw [List.mem_filter]
    constructor
    · rw [List.mem_enum_iff_getElem?]
      simp [List.getElem?_eq_getElem hj]
    · simpa using hex
  · simp [compile_video, List.isEmpty_iff, hne]

/-- Closed witness for C8: a two-frame session whose first screenshot file
is missing and whose second exists; the first is skipped with a warning, the
second is processed, and compilation still succeeds. -/
theorem missing_image_skipped_witness :
    (0 : Nat) < (SessionRecorder.mk "t"
        [Frame.mk 0 "a.png" [] none, Frame.mk 0 "ok.png" [] none]
        "screenshots" none []).frames.length ∧
    ((fun p => p == "ok.png") ((SessionRecorder.mk "t"
        [Frame.mk 0 "a.png" [] none, Frame.mk 0 "ok.png" [] none]
        "screenshots" none []).frames.get ⟨0, by simp⟩).screenshot_path
      = false) ∧
    (SessionRecorder.mk "t"
        [Frame.mk 0 "a.png" [] none, Frame.mk 0 "ok.png" [] none]
        "screenshots" none []).frames ≠ [] ∧
    (frameFileName 0 ∉ (compileVideoFrames (fun p => p == "ok.png")
        (SessionRecorder.mk "t"
          [Frame.mk 0 "a.png" [] none, Frame.mk 0 "ok.png" [] none]
          "screenshots" none [])).1 ∧
     missingWarning ((SessionRecorder.mk "t"
          [Frame.mk 0 "a.png" [] none, Frame.mk 0 "ok.png" [] none]
          "screenshots" none []).frames.get ⟨0, by simp⟩).screenshot_path
       ∈ (compileVideoFrames (fun p => p == "ok.png")
          (SessionRecorder.mk "t"
            [Frame.mk 0 "a.png" [] none, Frame.mk 0 "ok.png" [] none]
            "screenshots" none [])).2 ∧
     (∀ j, (hj : j < (SessionRecorder.mk "t"
          [Frame.mk 0 "a.png" [] none, Frame.mk 0 "ok.png" [] none]
          "screenshots" none []).frames.length) →
        (fun p => p == "ok.png") ((SessionRecorder.mk "t"
          [Frame.mk 0 "a.png" [] none, Frame.mk 0 "ok.png" [] none]
          "screenshots" none []).frames.get ⟨j, hj⟩).screenshot_path = true →
        frameFileName j ∈ (compileVideoFrames (fun p => p == "ok.png")
          (SessionRecorder.mk "t"
            [Frame.mk 0 "a.png" [] none, Frame.mk 0 "ok.png" [] none]
            "screenshots" none [])).1) ∧
     compile_video true true (fun p => p == "ok.png")
        (SessionRecorder.mk "t"
          [Frame.mk 0 "a.png" [] none, Frame.mk 0 "ok.png" [] none]
          "screenshots" none []) true = true) :=
  ⟨by simp, by decide, by decide,
    missing_image_skipped (fun p => p == "ok.png")
      (SessionRecorder.mk "t"
        [Frame.mk 0 "a.png" [] none, Frame.mk 0 "ok.png" [] none]
        "screenshots" none []) 0 true (by simp) (by decide) (by decide)⟩

end Replay

namespace VMpy

/-- Button-code mapping of `VM.click` in `vm.py` (line 80):
`\x7b"left": "1", "right": "3", "middle": "2"\x7d.get(button, "1")`. -/
def buttonCode (button : String) : String :=
  if button = "left" then "1"
  else if button = "right" then "3"
  else if button = "middle" then "2"
  else "1"

/-- Embeds `VM.click` (lines 78-82 of `vm.py`) as the list of remote
commands it runs: `clicks` repetitions of one `xdotool click` command with
the mapped button code (Python's `range` of a nonpositive count is empty,
hence `Int.toNat`). -/
def click (button : String) (clicks : Int) : List String :=
  List.replicate clicks.toNat ("DISPLAY=:0 xdotool click " ++ buttonCode button)

/-- C10. Unknown click button defaults to left: any button string other than
"left", "right" or "middle" maps to button code "1", and the click commands
issued are exactly those of a left click — the mapping is total, so an
unrecognized button name never raises an error. -/
theorem unknown_button_defaults_left (b : String)
    (h1 : b ≠ "left") (h2 : b ≠ "right") (h3 : b ≠ "middle") :
    buttonCode b = "1" ∧ ∀ c : Int, click b c = click "left" c := by
  have hb : buttonCode b = "1" := by simp [buttonCode, h1, h2, h3]
  have hleft : buttonCode "left" = "1" := rfl
  exact ⟨hb, fun c => by unfold click; rw [hb, hleft]⟩

/-- Closed witness for C10 at the unrecognized button name "banana". -/
theorem unknown_button_defaults_left_witness :
    ("banana" ≠ "left" ∧ "banana" ≠ "right" ∧ "banana" ≠ "middle") ∧
    (buttonCode "banana" = "1" ∧
      ∀ c : Int, click "banana" c = click "left" c) :=
  ⟨⟨by decide, by decide, by decide⟩,
    unknown_button_defaults_left "banana" (by decide) (by decide) (by decide)⟩

end VMpy
